import Mathlib

/-!
Verification development for the toio-mcp repository.

The repository is a bridge between an MCP tool-calling surface and toio
Core Cube robots.  Its core is `CubeManager` (src/toio_mcp/cube_manager.py
and the identical copy embedded in src/server.py): a flat registry mapping
an externally supplied device id to an internally generated cube (session)
id, and the cube id to a live connection handle.  On top of it sit thin
tool functions (src/server.py, src/toio_mcp/tools/) that validate the cube
id, forward one call to the device SDK, and collapse any failure into an
`error` envelope, plus a position-notification handler table
(src/toio_mcp/tools/position.py).

This file gives a shallow embedding of those parts.  Python dicts are
modelled as insertion-ordered association lists (`List (String × α)`);
calls into the external SDK (BLE scan, connect, disconnect, motor, read,
notification install/uninstall) are modelled by explicit environment
arguments describing the outcome of each call; a Python function that can
raise is modelled with `Except String`, and a `try/except` wrapper by
explicit totalisation.
-/

namespace ToioMcp

/-! Python dict model: insertion-ordered association list with unique keys.
Assignment `d[k] = v` updates in place when `k` is present and appends
otherwise; `del d[k]` removes the entry; iteration follows list order. -/

/-- Lookup of `d[k]` (first entry with key `k`), i.e. `d.get(k)`. -/
def dictLookup (d : List (String × α)) (k : String) : Option α :=
  (d.find? (fun p => p.1 == k)).map Prod.snd

/-- Membership test `k in d`. -/
def dictContains (d : List (String × α)) (k : String) : Bool :=
  d.any (fun p => p.1 == k)

/-- Assignment `d[k] = v`: update in place when present, append otherwise. -/
def dictInsert (d : List (String × α)) (k : String) (v : α) : List (String × α) :=
  if dictContains d k then d.map (fun p => if p.1 == k then (k, v) else p)
  else d ++ [(k, v)]

/-- Deletion `del d[k]`. -/
def dictErase (d : List (String × α)) (k : String) : List (String × α) :=
  d.filter (fun p => p.1 != k)

/-- Key view `list(d.keys())`. -/
def dictKeys (d : List (String × α)) : List String :=
  d.map Prod.fst

/-! The `ToioCoreCube` handle is external SDK state.  For the registry the
only relevant aspects are its identity and how its `disconnect()` call
behaves when awaited, so the model carries both as data. -/

/-- Model of a live `ToioCoreCube` connection handle.  `handleId`
distinguishes handles; `disconnectOk` records whether `await
cube.disconnect()` completes normally (`true`) or raises (`false`). -/
structure ToioCoreCube where
  handleId : Nat
  disconnectOk : Bool
deriving DecidableEq, Repr

/-- State of `CubeManager`: `cubes` models `self._cubes` (cube id →
handle) and `deviceMap` models `self._device_map` (device id → cube id). -/
structure CubeManagerState where
  cubes : List (String × ToioCoreCube)
  deviceMap : List (String × String)
deriving DecidableEq, Repr

/-- The state produced by `CubeManager.__init__`: both dicts empty. -/
def initialState : CubeManagerState := ⟨[], []⟩

/-- The cube id generated at connect time: `f"cube_{n}"`. -/
def mkCubeId (n : Nat) : String := "cube_" ++ Nat.repr n

/-- One device as returned by `BLEScanner.scan`: its BLE address and an
opaque interface token. -/
structure ScanDevice where
  address : String
  iface : Nat
deriving DecidableEq, Repr

/-- Outcome of the external calls made by one `connect_cube` invocation:
the result of `BLEScanner.scan` (which may raise), whether `await
cube.connect()` raises, and the handle the SDK would produce. -/
structure ConnectEnv where
  scanResult : Except String (List ScanDevice)
  connectErr : Option String
  newCube : ToioCoreCube

/-- Which external device operations a `connect_cube` call performed. -/
structure ConnectEffects where
  scanned : Bool
  connectAttempted : Bool
deriving DecidableEq, Repr

/-- Model of `CubeManager.connect_cube`.  Returns the cube id (or the
propagated exception: the `except` clause re-raises), the resulting
registry state, and which external operations ran. -/
def connect_cube (env : ConnectEnv) (s : CubeManagerState) (device_id : String) :
    Except String String × CubeManagerState × ConnectEffects :=
  match dictLookup s.deviceMap device_id with
  | some cube_id => (.ok cube_id, s, ⟨false, false⟩)
  | none =>
    match env.scanResult with
    | .error e => (.error e, s, ⟨true, false⟩)
    | .ok devices =>
      match devices.find? (fun d => d.address == device_id) with
      | none => (.error ("Device with ID " ++ device_id ++ " not found"), s, ⟨true, false⟩)
      | some _ =>
        match env.connectErr with
        | some e => (.error e, s, ⟨true, true⟩)
        | none =>
          let cube_id := mkCubeId (s.cubes.length + 1)
          (.ok cube_id,
            ⟨dictInsert s.cubes cube_id env.newCube,
             dictInsert s.deviceMap device_id cube_id⟩,
            ⟨true, true⟩)

/-- Body of the `try` block of `CubeManager.disconnect_cube`: raises
(`Except.error`) exactly when `await cube.disconnect()` raises, which
happens before either dict is mutated. -/
def disconnectBody (s : CubeManagerState) (cube_id : String) :
    Except String (Bool × CubeManagerState) :=
  match dictLookup s.cubes cube_id with
  | none => .ok (false, s)
  | some cube =>
    if cube.disconnectOk then
      let dev := (s.deviceMap.find? (fun p => p.2 == cube_id)).map Prod.fst
      let dm := match dev with
        | some d => if d = "" then s.deviceMap else dictErase s.deviceMap d
        | none => s.deviceMap
      .ok (true, ⟨dictErase s.cubes cube_id, dm⟩)
    else .error "disconnect failed"

/-- Model of `CubeManager.disconnect_cube`: the `except` clause turns any
exception of the body into a plain `False` with the state as it was at the
raise point (no mutation precedes the `await`). -/
def disconnect_cube (s : CubeManagerState) (cube_id : String) :
    Bool × CubeManagerState :=
  match disconnectBody s cube_id with
  | .ok r => r
  | .error _ => (false, s)

/-- Model of `CubeManager.get_connected_cubes`. -/
def get_connected_cubes (s : CubeManagerState) : List String :=
  dictKeys s.cubes

/-- Model of `CubeManager.get_cube`. -/
def get_cube (s : CubeManagerState) (cube_id : String) : Option ToioCoreCube :=
  dictLookup s.cubes cube_id

/-- Model of `CubeManager.disconnect_all`: snapshot the key list, then
disconnect each id in turn, ignoring each call's boolean result. -/
def disconnect_all (s : CubeManagerState) : CubeManagerState :=
  (dictKeys s.cubes).foldl (fun st cid => (disconnect_cube st cid).2) s

/-! Tool dispatch shell (src/server.py).  Tool results are JSON objects,
modelled as association lists of JSON values. -/

/-- JSON values appearing in tool results. -/
inductive JVal where
  | jstr (s : String)
  | jbool (b : Bool)
  | jint (n : Int)
deriving DecidableEq, Repr

/-- A JSON object result of a tool call. -/
abbrev JObj := List (String × JVal)

/-- The message of the unknown-cube error envelope:
`f"Cube with ID {cube_id} not found"`. -/
def notFoundMsg (cube_id : String) : String :=
  "Cube with ID " ++ cube_id ++ " not found"

/-- Model of `_motor_control` (src/server.py).  `motorErr` is the outcome
of `await cube.api.motor.motor_control(...)` (`some e` = raises).  The
second component records whether a device capability was invoked. -/
def toolMotorControl (s : CubeManagerState) (cube_id : String)
    (left right duration_ms : Int) (motorErr : Option String) : JObj × Bool :=
  match get_cube s cube_id with
  | none => ([("error", .jstr (notFoundMsg cube_id))], false)
  | some _ =>
    match motorErr with
    | some e => ([("error", .jstr e)], true)
    | none =>
      let _ := (left, right, duration_ms)
      ([("controlled", .jbool true)], true)

/-- Model of `_motor_stop` (src/server.py). -/
def toolMotorStop (s : CubeManagerState) (cube_id : String)
    (motorErr : Option String) : JObj × Bool :=
  match get_cube s cube_id with
  | none => ([("error", .jstr (notFoundMsg cube_id))], false)
  | some _ =>
    match motorErr with
    | some e => ([("error", .jstr e)], true)
    | none => ([("stopped", .jbool true)], true)

/-- Model of `_set_indicator` (src/server.py). -/
def toolSetIndicator (s : CubeManagerState) (cube_id : String)
    (r g b duration_ms : Int) (indicatorErr : Option String) : JObj × Bool :=
  match get_cube s cube_id with
  | none => ([("error", .jstr (notFoundMsg cube_id))], false)
  | some _ =>
    match indicatorErr with
    | some e => ([("error", .jstr e)], true)
    | none =>
      let _ := (r, g, b, duration_ms)
      ([("set", .jbool true)], true)

/-- The value returned by `await cube.api.id_information.read()`.  The SDK
declares four response classes; the `isinstance` chain in `_get_position`
is open-ended, so the model keeps a constructor for a non-absent value of
any other class. -/
inductive IdInfoResp where
  | positionId (cx cy ca sx sy sa : Int)
  | standardId (value angle : Int)
  | positionIdMissed
  | standardIdMissed
  | otherResp (tag : Nat)
deriving DecidableEq, Repr

/-- Outcome of the device read inside `_get_position`. -/
inductive ReadOutcome where
  | raises (msg : String)
  | returns (v : Option IdInfoResp)
deriving DecidableEq, Repr

/-- Model of `_get_position` (src/server.py; src/toio_mcp/tools/__init__.py
is identical).  `result` starts as `{}` and is only filled for the four
known response classes; any other non-absent value falls through the
`isinstance` chain and the empty object is returned. -/
def toolGetPosition (s : CubeManagerState) (cube_id : String)
    (env : ReadOutcome) : JObj :=
  match get_cube s cube_id with
  | none => [("error", .jstr (notFoundMsg cube_id))]
  | some _ =>
    match env with
    | .raises m => [("error", .jstr m)]
    | .returns none => [("error", .jstr "Failed to get position information")]
    | .returns (some v) =>
      match v with
      | .positionId cx cy ca sx sy sa =>
          [("type", .jstr "position_id"), ("center_x", .jint cx),
           ("center_y", .jint cy), ("center_angle", .jint ca),
           ("sensor_x", .jint sx), ("sensor_y", .jint sy),
           ("sensor_angle", .jint sa)]
      | .standardId value angle =>
          [("type", .jstr "standard_id"), ("value", .jint value),
           ("angle", .jint angle)]
      | .positionIdMissed => [("type", .jstr "position_id_missed")]
      | .standardIdMissed => [("type", .jstr "standard_id_missed")]
      | .otherResp _ => []

/-! Notification-handler lifecycle (src/toio_mcp/tools/position.py).
`_notification_handlers` maps a cube id to the lambda installed for it;
handler identity is modelled as a `Nat`. -/

/-- Model of the `MCPToolResult` record used by the position tools. -/
structure MCPToolResult where
  success : Bool
  result : JObj
  error : Option String
deriving DecidableEq, Repr

/-- Model of `_register_position_notification`.  `newHandler` is the
lambda created for this call; `installErr` is the outcome of `await
cube.api.id_information.register_notification_handler(handler)`.  Returns
the tool result, the updated handler table (the table is written before
the awaited install, so it is updated even when the install raises), and
the handler passed to the device install call, if any. -/
def registerPositionNotification (s : CubeManagerState)
    (handlers : List (String × Nat)) (cube_id : String) (newHandler : Nat)
    (installErr : Option String) :
    MCPToolResult × List (String × Nat) × Option Nat :=
  match get_cube s cube_id with
  | none => (⟨false, [], some (notFoundMsg cube_id)⟩, handlers, none)
  | some _ =>
    let handlers' := dictInsert handlers cube_id newHandler
    match installErr with
    | some e => (⟨false, [], some e⟩, handlers', some newHandler)
    | none => (⟨true, [("registered", .jbool true)], none⟩, handlers', some newHandler)

/-- Model of `_unregister_position_notification`.  `uninstallErr` is the
outcome of `await cube.api.id_information.unregister_notification_handler`;
the table entry is deleted only after that call returns normally.  The
third component is the handler passed to the device uninstall call, if
any. -/
def unregisterPositionNotification (s : CubeManagerState)
    (handlers : List (String × Nat)) (cube_id : String)
    (uninstallErr : Option String) :
    MCPToolResult × List (String × Nat) × Option Nat :=
  match get_cube s cube_id with
  | none => (⟨false, [], some (notFoundMsg cube_id)⟩, handlers, none)
  | some _ =>
    match dictLookup handlers cube_id with
    | none =>
      (⟨false, [], some ("No notification handler registered for cube " ++ cube_id)⟩,
        handlers, none)
    | some h =>
      match uninstallErr with
      | some e => (⟨false, [], some e⟩, handlers, some h)
      | none =>
        (⟨true, [("unregistered", .jbool true)], none⟩,
          dictErase handlers cube_id, some h)

/-! Basic lemmas about the dict model. -/

theorem dictLookup_eq_none_iff (d : List (String × α)) (k : String) :
    dictLookup d k = none ↔ dictContains d k = false := by
  simp [dictLookup, dictContains, List.find?_eq_none, List.any_eq_true]

theorem dictLookup_nil (k : String) : dictLookup ([] : List (String × α)) k = none := rfl

theorem dictLookup_cons (p : String × α) (d : List (String × α)) (k : String) :
    dictLookup (p :: d) k = if p.1 = k then some p.2 else dictLookup d k := by
  by_cases h : p.1 = k
  · simp [dictLookup, List.find?_cons_of_pos, h]
  · simp [dictLookup, List.find?_cons_of_neg, h]

theorem dictContains_cons (p : String × α) (d : List (String × α)) (k : String) :
    dictContains (p :: d) k = ((p.1 == k) || dictContains d k) := by
  simp [dictContains]

theorem dictErase_cons (p : String × α) (d : List (String × α)) (k : String) :
    dictErase (p :: d) k = if p.1 = k then dictErase d k else p :: dictErase d k := by
  by_cases h : p.1 = k <;> simp [dictErase, List.filter_cons, h]

theorem dictErase_of_not_mem_keys (d : List (String × α)) (k : String)
    (h : k ∉ dictKeys d) : dictErase d k = d := by
  induction d with
  | nil => rfl
  | cons p d ih =>
    simp only [dictKeys, List.map_cons, List.mem_cons, not_or] at h
    rw [dictErase_cons, if_neg (fun hp => h.1 hp.symm),
      ih (by simpa [dictKeys] using h.2)]

theorem dictLookup_erase_self (d : List (String × α)) (k : String) :
    dictLookup (dictErase d k) k = none := by
  induction d with
  | nil => rfl
  | cons p d ih =>
    rw [dictErase_cons]
    by_cases h : p.1 = k
    · simpa [h] using ih
    · rw [if_neg h, dictLookup_cons, if_neg h]
      exact ih

theorem not_mem_dictKeys_erase_self (d : List (String × α)) (k : String) :
    k ∉ dictKeys (dictErase d k) := by
  induction d with
  | nil => simp [dictErase, dictKeys]
  | cons p d ih =>
    rw [dictErase_cons]
    by_cases h : p.1 = k
    · simpa [h] using ih
    · rw [if_neg h]
      simp only [dictKeys, List.map_cons, List.mem_cons, not_or]
      exact ⟨fun hk => h hk.symm, ih⟩

theorem dictLookup_insert_self (d : List (String × α)) (k : String) (v : α) :
    dictLookup (dictInsert d k v) k = some v := by
  induction d with
  | nil => simp [dictInsert, dictContains, dictLookup]
  | cons p d ih =>
    by_cases hp : p.1 = k
    · have hc : dictContains (p :: d) k = true := by
        rw [dictContains_cons]; simp [hp]
      rw [dictInsert, hc, if_pos rfl, List.map_cons]
      have : (if (p.1 == k) = true then (k, v) else p) = (k, v) := by simp [hp]
      rw [this, dictLookup_cons, if_pos rfl]
    · have hc : dictContains (p :: d) k = dictContains d k := by
        rw [dictContains_cons]; simp [hp]
      by_cases hd : dictContains d k
      · have hins : dictInsert (p :: d) k v =
            p :: d.map (fun q => if q.1 == k then (k, v) else q) := by
          rw [dictInsert, hc, if_pos hd, List.map_cons]
          congr 1
          simp [hp]
        rw [hins, dictLookup_cons, if_neg hp]
        have hins' : dictInsert d k v =
            d.map (fun q => if q.1 == k then (k, v) else q) := by
          rw [dictInsert, if_pos hd]
        rw [hins'] at ih
        exact ih
      · have hins : dictInsert (p :: d) k v = p :: (d ++ [(k, v)]) := by
          rw [dictInsert, hc, if_neg hd]; rfl
        rw [hins, dictLookup_cons, if_neg hp]
        have hins' : dictInsert d k v = d ++ [(k, v)] := by
          rw [dictInsert, if_neg hd]
        rw [hins'] at ih
        exact ih

theorem mem_dictKeys_of_lookup (d : List (String × α)) (k : String) (v : α)
    (h : dictLookup d k = some v) : k ∈ dictKeys d := by
  unfold dictLookup at h
  cases hf : d.find? (fun p => p.1 == k) with
  | none => rw [hf] at h; simp at h
  | some p =>
    have hp : p ∈ d := List.mem_of_find?_eq_some hf
    have hk : p.1 = k := by
      have := List.find?_some hf
      simpa using this
    exact hk ▸ List.mem_map_of_mem Prod.fst hp

/-! Sample registry states used by the closed witness theorems. -/

/-- A healthy handle whose `disconnect()` succeeds. -/
def okCube : ToioCoreCube := ⟨0, true⟩

/-- A handle whose `disconnect()` raises. -/
def badCube : ToioCoreCube := ⟨1, false⟩

/-- Registry holding one session whose close succeeds. -/
def sampleOkState : CubeManagerState :=
  ⟨[("cube_1", okCube)], [("AA:BB:CC:DD:EE:FF", "cube_1")]⟩

/-- Registry holding one session whose close raises. -/
def sampleBadState : CubeManagerState :=
  ⟨[("cube_1", badCube)], [("AA:BB:CC:DD:EE:FF", "cube_1")]⟩

/-- A connect environment for calls that should not reach the scanner. -/
def idleConnectEnv : ConnectEnv := ⟨.ok [], none, okCube⟩

/-- Claim C3: for a device id already mapped to a session, `connect_cube`
returns that session id, performs no scan and no new connection, and
leaves both maps unchanged. -/
theorem connect_cube_idempotent_when_device_known
    (env : ConnectEnv) (s : CubeManagerState) (device_id cid : String)
    (h : dictLookup s.deviceMap device_id = some cid) :
    connect_cube env s device_id = (.ok cid, s, ⟨false, false⟩) := by
  unfold connect_cube
  rw [h]

theorem connect_cube_idempotent_when_device_known_witness :
    connect_cube idleConnectEnv sampleOkState "AA:BB:CC:DD:EE:FF" =
      (.ok "cube_1", sampleOkState, ⟨false, false⟩) :=
  connect_cube_idempotent_when_device_known idleConnectEnv sampleOkState
    "AA:BB:CC:DD:EE:FF" "cube_1" (by decide)

/-- Claim C4: `disconnect_cube` on a session id absent from the registry
returns `false` and leaves both maps unchanged. -/
theorem disconnect_cube_unknown_id_noop
    (s : CubeManagerState) (cube_id : String)
    (h : dictContains s.cubes cube_id = false) :
    disconnect_cube s cube_id = (false, s) := by
  have hl : dictLookup s.cubes cube_id = none :=
    (dictLookup_eq_none_iff s.cubes cube_id).mpr h
  unfold disconnect_cube disconnectBody
  rw [hl]

theorem disconnect_cube_unknown_id_noop_witness :
    disconnect_cube sampleOkState "cube_unknown" = (false, sampleOkState) :=
  disconnect_cube_unknown_id_noop sampleOkState "cube_unknown" (by decide)

/-- Claim C6: `disconnect_cube` never propagates an exception.  The body
of its `try` block raises exactly when the session is registered and the
underlying close raises, and in that case the `except` clause turns the
exception into `(false, s)` instead of re-raising. -/
theorem disconnect_cube_catches_close_failure
    (s : CubeManagerState) (cube_id : String) :
    (∀ e, disconnectBody s cube_id = .error e →
      disconnect_cube s cube_id = (false, s)) ∧
    ((∃ e, disconnectBody s cube_id = .error e) ↔
      ∃ c, get_cube s cube_id = some c ∧ c.disconnectOk = false) := by
  constructor
  · intro e h
    unfold disconnect_cube
    rw [h]
  · unfold disconnectBody get_cube
    cases hl : dictLookup s.cubes cube_id with
    | none => simp
    | some c =>
      cases hc : c.disconnectOk <;> simp [hc]

theorem disconnect_cube_catches_close_failure_witness :
    disconnect_cube sampleBadState "cube_1" = (false, sampleBadState) :=
  (disconnect_cube_catches_close_failure sampleBadState "cube_1").1
    "disconnect failed" rfl

/-- Claim C9: when the underlying close raises for a registered session,
`disconnect_cube` returns `false` and leaves the state unchanged, so the
session still resolves via `get_cube` and still appears in
`get_connected_cubes`. -/
theorem disconnect_cube_close_failure_preserves_state
    (s : CubeManagerState) (cube_id : String) (c : ToioCoreCube)
    (h : get_cube s cube_id = some c) (hbad : c.disconnectOk = false) :
    disconnect_cube s cube_id = (false, s) ∧
    get_cube (disconnect_cube s cube_id).2 cube_id = some c ∧
    cube_id ∈ get_connected_cubes (disconnect_cube s cube_id).2 := by
  have hstep : disconnect_cube s cube_id = (false, s) := by
    unfold disconnect_cube disconnectBody
    unfold get_cube at h
    rw [h]
    simp [hbad]
  refine ⟨hstep, ?_, ?_⟩
  · rw [hstep]; exact h
  · rw [hstep]
    exact mem_dictKeys_of_lookup s.cubes cube_id c h

theorem disconnect_cube_close_failure_preserves_state_witness :
    disconnect_cube sampleBadState "cube_1" = (false, sampleBadState) ∧
    get_cube (disconnect_cube sampleBadState "cube_1").2 "cube_1" = some badCube ∧
    "cube_1" ∈ get_connected_cubes (disconnect_cube sampleBadState "cube_1").2 :=
  disconnect_cube_close_failure_preserves_state sampleBadState "cube_1" badCube
    (by decide) (by decide)

/-- Claim C7: a tool operation referencing a cube id absent from the
registry returns exactly the `{"error": "Cube with ID <id> not found"}`
envelope without invoking any device capability (shown for motor control,
motor stop, indicator and position read, including the concrete
`motor_control("cube_unknown", 50, 50, 0)` scenario), and every result of
the motor-control tool is either the success object or an object whose
single key is `error` with a string message. -/
theorem tool_unknown_cube_error_envelope :
    (∀ s cube_id (l r d : Int) env, get_cube s cube_id = none →
      toolMotorControl s cube_id l r d env =
        ([("error", .jstr (notFoundMsg cube_id))], false)) ∧
    toolMotorControl initialState "cube_unknown" 50 50 0 none =
      ([("error", JVal.jstr "Cube with ID cube_unknown not found")], false) ∧
    (∀ s cube_id (l r d : Int) env,
      (toolMotorControl s cube_id l r d env).1 = [("controlled", JVal.jbool true)] ∨
      ∃ m, (toolMotorControl s cube_id l r d env).1 = [("error", JVal.jstr m)]) ∧
    (∀ s cube_id env, get_cube s cube_id = none →
      toolMotorStop s cube_id env =
        ([("error", .jstr (notFoundMsg cube_id))], false)) ∧
    (∀ s cube_id (r g b d : Int) env, get_cube s cube_id = none →
      toolSetIndicator s cube_id r g b d env =
        ([("error", .jstr (notFoundMsg cube_id))], false)) ∧
    (∀ s cube_id env, get_cube s cube_id = none →
      toolGetPosition s cube_id env = [("error", .jstr (notFoundMsg cube_id))]) := by
  refine ⟨?_, rfl, ?_, ?_, ?_, ?_⟩
  · intro s cube_id l r d env h
    unfold toolMotorControl
    rw [h]
  · intro s cube_id l r d env
    unfold toolMotorControl
    cases hg : get_cube s cube_id with
    | none => exact Or.inr ⟨notFoundMsg cube_id, rfl⟩
    | some c =>
      cases env with
      | none => exact Or.inl rfl
      | some e => exact Or.inr ⟨e, rfl⟩
  · intro s cube_id env h
    unfold toolMotorStop
    rw [h]
  · intro s cube_id r g b d env h
    unfold toolSetIndicator
    rw [h]
  · intro s cube_id env h
    unfold toolGetPosition
    rw [h]

theorem tool_unknown_cube_error_envelope_witness :
    toolMotorStop initialState "cube_unknown" none =
      ([("error", JVal.jstr (notFoundMsg "cube_unknown"))], false) :=
  tool_unknown_cube_error_envelope.2.2.2.1 initialState "cube_unknown" none rfl

/-- Claim C10: when the device read in the position tool yields a
non-absent value of none of the four known response classes, the tool
returns the empty object, which carries neither a `type` key nor an
`error` key. -/
theorem get_position_unknown_variant_empty_object
    (s : CubeManagerState) (cube_id : String) (c : ToioCoreCube) (tag : Nat)
    (h : get_cube s cube_id = some c) :
    toolGetPosition s cube_id (.returns (some (.otherResp tag))) = [] ∧
    dictLookup (toolGetPosition s cube_id (.returns (some (.otherResp tag)))) "type" = none ∧
    dictLookup (toolGetPosition s cube_id (.returns (some (.otherResp tag)))) "error" = none := by
  have hres : toolGetPosition s cube_id (.returns (some (.otherResp tag))) = [] := by
    unfold toolGetPosition
    rw [h]
  exact ⟨hres, by rw [hres]; rfl, by rw [hres]; rfl⟩

theorem get_position_unknown_variant_empty_object_witness :
    toolGetPosition sampleOkState "cube_1" (.returns (some (.otherResp 7))) = [] ∧
    dictLookup (toolGetPosition sampleOkState "cube_1" (.returns (some (.otherResp 7)))) "type" = none ∧
    dictLookup (toolGetPosition sampleOkState "cube_1" (.returns (some (.otherResp 7)))) "error" = none :=
  get_position_unknown_variant_empty_object sampleOkState "cube_1" okCube 7 (by decide)

/-- Claim C8: unregistering a position notification with no registered
handler fails with the not-registered error and changes nothing; after a
register followed by an unregister, a second unregister for the same
session fails the same way; and a successful unregister passes the stored
handler to the device uninstall call and removes its table entry. -/
theorem unregister_notification_lifecycle :
    (∀ s handlers cube_id c env, get_cube s cube_id = some c →
      dictLookup handlers cube_id = none →
      unregisterPositionNotification s handlers cube_id env =
        (⟨false, [], some ("No notification handler registered for cube " ++ cube_id)⟩,
          handlers, none)) ∧
    (∀ s handlers cube_id c nh, get_cube s cube_id = some c →
      (unregisterPositionNotification s
        (unregisterPositionNotification s
          (registerPositionNotification s handlers cube_id nh none).2.1
          cube_id none).2.1
        cube_id none).1 =
      ⟨false, [], some ("No notification handler registered for cube " ++ cube_id)⟩) ∧
    (∀ s handlers cube_id c h, get_cube s cube_id = some c →
      dictLookup handlers cube_id = some h →
      unregisterPositionNotification s handlers cube_id none =
        (⟨true, [("unregistered", .jbool true)], none⟩,
          dictErase handlers cube_id, some h)) := by
  refine ⟨?_, ?_, ?_⟩
  · intro s handlers cube_id c env hc hl
    unfold unregisterPositionNotification
    rw [hc, hl]
  · intro s handlers cube_id c nh hc
    have hreg : (registerPositionNotification s handlers cube_id nh none).2.1 =
        dictInsert handlers cube_id nh := by
      unfold registerPositionNotification; rw [hc]
    rw [hreg]
    have hl1 : dictLookup (dictInsert handlers cube_id nh) cube_id = some nh :=
      dictLookup_insert_self handlers cube_id nh
    have hun1 : (unregisterPositionNotification s
        (dictInsert handlers cube_id nh) cube_id none).2.1 =
        dictErase (dictInsert handlers cube_id nh) cube_id := by
      unfold unregisterPositionNotification; rw [hc, hl1]
    rw [hun1]
    have hl2 : dictLookup (dictErase (dictInsert handlers cube_id nh) cube_id)
        cube_id = none :=
      dictLookup_erase_self (dictInsert handlers cube_id nh) cube_id
    unfold unregisterPositionNotification
    rw [hc, hl2]
  · intro s handlers cube_id c h hc hl
    unfold unregisterPositionNotification
    rw [hc, hl]

theorem unregister_notification_lifecycle_witness :
    unregisterPositionNotification sampleOkState [] "cube_1" none =
      (⟨false, [], some "No notification handler registered for cube cube_1"⟩,
        [], none) :=
  unregister_notification_lifecycle.1 sampleOkState [] "cube_1" okCube none
    (by decide) rfl

/-- Claim C5, counterexample: for a registered session whose underlying
close raises, calling `disconnect_cube` leaves the session visible, so
"after `disconnect_cube(S)` has been called, `get_cube(S)` returns absent
and S no longer appears in the list" fails as stated. -/
theorem disconnect_then_get_absent_counterexample :
    get_cube (disconnect_cube sampleBadState "cube_1").2 "cube_1" ≠ none ∧
    "cube_1" ∈ get_connected_cubes (disconnect_cube sampleBadState "cube_1").2 := by
  decide

/-- Claim C5, amended: for every registered session whose underlying close
succeeds, `disconnect_cube` returns `true`, and afterwards `get_cube`
returns absent and the session no longer appears in
`get_connected_cubes`. -/
theorem disconnect_then_get_absent
    (s : CubeManagerState) (cube_id : String) (c : ToioCoreCube)
    (h : get_cube s cube_id = some c) (hok : c.disconnectOk = true) :
    (disconnect_cube s cube_id).1 = true ∧
    get_cube (disconnect_cube s cube_id).2 cube_id = none ∧
    cube_id ∉ get_connected_cubes (disconnect_cube s cube_id).2 := by
  have hstep : disconnect_cube s cube_id =
      (true, ⟨dictErase s.cubes cube_id,
        match (s.deviceMap.find? (fun p => p.2 == cube_id)).map Prod.fst with
        | some d => if d = "" then s.deviceMap else dictErase s.deviceMap d
        | none => s.deviceMap⟩) := by
    unfold disconnect_cube disconnectBody
    unfold get_cube at h
    rw [h]
    simp [hok]
  refine ⟨by rw [hstep], ?_, ?_⟩
  · rw [hstep]
    exact dictLookup_erase_self s.cubes cube_id
  · rw [hstep]
    exact not_mem_dictKeys_erase_self s.cubes cube_id

theorem disconnect_then_get_absent_witness :
    (disconnect_cube sampleOkState "cube_1").1 = true ∧
    get_cube (disconnect_cube sampleOkState "cube_1").2 "cube_1" = none ∧
    "cube_1" ∉ get_connected_cubes (disconnect_cube sampleOkState "cube_1").2 :=
  disconnect_then_get_absent sampleOkState "cube_1" okCube (by decide) (by decide)

/-- Claim C1, counterexample: when a session's underlying close raises,
`disconnect_all` leaves that session in both maps, so "both maps are empty
afterwards even if an individual close failed" fails as stated. -/
theorem disconnect_all_empties_counterexample :
    disconnect_all sampleBadState = sampleBadState ∧
    get_connected_cubes (disconnect_all sampleBadState) ≠ [] ∧
    (disconnect_all sampleBadState).deviceMap ≠ [] := by
  decide

/-- Claim C1, amended: `disconnect_all` empties both maps provided every
registered handle's close succeeds and the registry is well formed (cube
ids are distinct; every device-map entry has a nonempty device id and maps
to a registered cube id; device-map targets are distinct).  A session
whose close raises stays registered instead. -/
theorem disconnect_all_empties
    (cubes : List (String × ToioCoreCube)) (dm : List (String × String))
    (hnd : (dictKeys cubes).Nodup)
    (hok : ∀ p ∈ cubes, p.2.disconnectOk = true)
    (hdm : ∀ p ∈ dm, p.1 ≠ "" ∧ p.2 ∈ dictKeys cubes)
    (hvnd : (dm.map Prod.snd).Nodup) :
    disconnect_all ⟨cubes, dm⟩ = ⟨[], []⟩ := by
  induction cubes generalizing dm with
  | nil =>
    have hdmnil : dm = [] := by
      cases dm with
      | nil => rfl
      | cons p dm' => exact absurd (hdm p (List.mem_cons_self _ _)).2 (by simp [dictKeys])
    subst hdmnil
    rfl
  | cons entry rest ih =>
    obtain ⟨k, cube⟩ := entry
    have hnd1 : (k :: dictKeys rest).Nodup := hnd
    have hknotin : k ∉ dictKeys rest := (List.nodup_cons.mp hnd1).1
    have hnd' : (dictKeys rest).Nodup := (List.nodup_cons.mp hnd1).2
    have hok' : ∀ p ∈ rest, p.2.disconnectOk = true :=
      fun p hp => hok p (List.mem_cons_of_mem _ hp)
    have hcube : cube.disconnectOk = true := hok ⟨k, cube⟩ (List.mem_cons_self _ _)
    have hlook : dictLookup ((⟨k, cube⟩ : String × ToioCoreCube) :: rest) k = some cube := by
      rw [dictLookup_cons]; simp
    have herase : dictErase ((⟨k, cube⟩ : String × ToioCoreCube) :: rest) k = rest := by
      rw [dictErase_cons, if_pos rfl]
      exact dictErase_of_not_mem_keys rest k hknotin
    cases hfind : dm.find? (fun p => p.2 == k) with
    | none =>
      have hstep : disconnect_cube ⟨⟨k, cube⟩ :: rest, dm⟩ k = (true, ⟨rest, dm⟩) := by
        unfold disconnect_cube disconnectBody
        simp only [hlook, hcube, if_true, hfind, Option.map_none', herase]
      have hchain : disconnect_all ⟨⟨k, cube⟩ :: rest, dm⟩ =
          disconnect_all ⟨rest, dm⟩ := by
        unfold disconnect_all
        simp only [dictKeys, List.map_cons, List.foldl_cons, hstep]
      rw [hchain]
      refine ih dm hnd' hok' ?_ hvnd
      intro p hp
      have hne : ¬ (p.2 == k) = true := by
        have := List.find?_eq_none.mp hfind p hp
        simpa using this
      have hne' : p.2 ≠ k := by simpa using hne
      have hmem := (hdm p hp).2
      simp only [dictKeys, List.map_cons, List.mem_cons] at hmem
      exact ⟨(hdm p hp).1, hmem.resolve_left hne'⟩
    | some q =>
      have hq : q ∈ dm := List.mem_of_find?_eq_some hfind
      have hqk : q.2 = k := by
        have := List.find?_some hfind
        simpa using this
      have hq1 : q.1 ≠ "" := (hdm q hq).1
      have hstep : disconnect_cube ⟨⟨k, cube⟩ :: rest, dm⟩ k =
          (true, ⟨rest, dictErase dm q.1⟩) := by
        unfold disconnect_cube disconnectBody
        simp only [hlook, hcube, if_true, hfind, Option.map_some', herase,
          if_neg hq1]
      have hchain : disconnect_all ⟨⟨k, cube⟩ :: rest, dm⟩ =
          disconnect_all ⟨rest, dictErase dm q.1⟩ := by
        unfold disconnect_all
        simp only [dictKeys, List.map_cons, List.foldl_cons, hstep]
      rw [hchain]
      have hsub : List.Sublist (dictErase dm q.1) dm := List.filter_sublist dm
      refine ih (dictErase dm q.1) hnd' hok' ?_ (hvnd.sublist (hsub.map Prod.snd))
      intro p hp
      have hp' : p ∈ dm ∧ ¬ (p.1 = q.1) := by
        have := List.mem_filter.mp hp
        refine ⟨this.1, ?_⟩
        have hb := this.2
        simp [bne] at hb
        exact hb
      have hne : p.2 ≠ k := by
        intro hpk
        have : p = q :=
          List.inj_on_of_nodup_map hvnd hp'.1 hq (by rw [hpk, hqk])
        exact hp'.2 (by rw [this])
      have hmem := (hdm p hp'.1).2
      simp only [dictKeys, List.map_cons, List.mem_cons] at hmem
      exact ⟨(hdm p hp'.1).1, hmem.resolve_left hne⟩

theorem disconnect_all_empties_witness :
    disconnect_all ⟨[("cube_1", okCube), ("cube_2", ⟨2, true⟩)],
      [("AA", "cube_1"), ("BB", "cube_2")]⟩ = ⟨[], []⟩ :=
  disconnect_all_empties [("cube_1", okCube), ("cube_2", ⟨2, true⟩)]
    [("AA", "cube_1"), ("BB", "cube_2")]
    (by decide) (by decide) (by decide) (by decide)

/-! Injectivity of the decimal rendering behind `f"cube_{n}"`.  `Nat.repr`
is defined through the fueled `Nat.toDigitsCore`; the lemmas below replay
its recursion to show distinct numbers render to distinct strings. -/

theorem toDigitsCore_acc (fuel : Nat) : ∀ (n : Nat) (ds : List Char),
    Nat.toDigitsCore 10 fuel n ds = Nat.toDigitsCore 10 fuel n [] ++ ds := by
  induction fuel with
  | zero => intro n ds; simp [Nat.toDigitsCore]
  | succ fuel ih =>
    intro n ds
    by_cases h : n / 10 = 0
    · simp [Nat.toDigitsCore, h]
    · simp only [Nat.toDigitsCore, h, if_false]
      rw [ih (n / 10) (Nat.digitChar (n % 10) :: ds),
        ih (n / 10) [Nat.digitChar (n % 10)]]
      simp

theorem toDigitsCore_fuel (n : Nat) : ∀ f f', n < f → n < f' →
    Nat.toDigitsCore 10 f n [] = Nat.toDigitsCore 10 f' n [] := by
  induction n using Nat.strong_induction_on with
  | _ n ih =>
    intro f f' hf hf'
    obtain ⟨g, rfl⟩ : ∃ g, f = g + 1 := ⟨f - 1, by omega⟩
    obtain ⟨g', rfl⟩ : ∃ g'', f' = g'' + 1 := ⟨f' - 1, by omega⟩
    by_cases h : n / 10 = 0
    · simp [Nat.toDigitsCore, h]
    · have hn10 : 10 ≤ n := by
        rcases Nat.lt_or_ge n 10 with hlt | hge
        · exact absurd (Nat.div_eq_of_lt hlt) h
        · exact hge
      have hdiv : n / 10 < n := Nat.div_lt_self (by omega) (by omega)
      simp only [Nat.toDigitsCore, h, if_false]
      rw [toDigitsCore_acc g (n / 10) [Nat.digitChar (n % 10)],
        toDigitsCore_acc g' (n / 10) [Nat.digitChar (n % 10)],
        ih (n / 10) hdiv g g' (by omega) (by omega)]

theorem toDigits_ten_lt (n : Nat) (h : n < 10) :
    Nat.toDigits 10 n = [Nat.digitChar n] := by
  have h0 : n / 10 = 0 := Nat.div_eq_of_lt h
  have h1 : n % 10 = n := Nat.mod_eq_of_lt h
  simp [Nat.toDigits, Nat.toDigitsCore, h0, h1]

theorem toDigits_ten_ge (n : Nat) (h : 10 ≤ n) :
    Nat.toDigits 10 n = Nat.toDigits 10 (n / 10) ++ [Nat.digitChar (n % 10)] := by
  have h0 : ¬ n / 10 = 0 := by
    have : 0 < n / 10 := Nat.div_pos h (by omega)
    omega
  have hdiv : n / 10 < n := Nat.div_lt_self (by omega) (by omega)
  show Nat.toDigitsCore 10 (n + 1) n [] = _
  simp only [Nat.toDigitsCore, h0, if_false]
  rw [toDigitsCore_acc n (n / 10) [Nat.digitChar (n % 10)],
    toDigitsCore_fuel (n / 10) n (n / 10 + 1) (by omega) (by omega)]
  rfl

theorem digitChar_inj_lt_ten :
    ∀ a < 10, ∀ b < 10, Nat.digitChar a = Nat.digitChar b → a = b := by
  decide

theorem toDigits_ne_nil (n : Nat) : Nat.toDigits 10 n ≠ [] := by
  by_cases h : n < 10
  · rw [toDigits_ten_lt n h]; simp
  · rw [toDigits_ten_ge n (by omega)]; simp

theorem toDigits_inj (n : Nat) : ∀ m, Nat.toDigits 10 n = Nat.toDigits 10 m → n = m := by
  induction n using Nat.strong_induction_on with
  | _ n ih =>
    intro m h
    by_cases hn : n < 10 <;> by_cases hm : m < 10
    · rw [toDigits_ten_lt n hn, toDigits_ten_lt m hm] at h
      exact digitChar_inj_lt_ten n hn m hm (List.cons.inj h).1
    · rw [toDigits_ten_lt n hn, toDigits_ten_ge m (by omega)] at h
      have hlen := congrArg List.length h
      have hne := toDigits_ne_nil (m / 10)
      simp [List.length_append] at hlen
      cases hd : Nat.toDigits 10 (m / 10) with
      | nil => exact absurd hd hne
      | cons c cs => rw [hd] at hlen; simp at hlen
    · rw [toDigits_ten_ge n (by omega), toDigits_ten_lt m hm] at h
      have hlen := congrArg List.length h
      have hne := toDigits_ne_nil (n / 10)
      simp [List.length_append] at hlen
      cases hd : Nat.toDigits 10 (n / 10) with
      | nil => exact absurd hd hne
      | cons c cs => rw [hd] at hlen; simp at hlen
    · rw [toDigits_ten_ge n (by omega), toDigits_ten_ge m (by omega)] at h
      have hparts := List.append_inj' h (by rfl)
      have hm10 : n % 10 = m % 10 := by
        have := (List.cons.inj hparts.2).1
        exact digitChar_inj_lt_ten (n % 10) (Nat.mod_lt n (by omega))
          (m % 10) (Nat.mod_lt m (by omega)) this
      have hdiv : n / 10 = m / 10 :=
        ih (n / 10) (Nat.div_lt_self (by omega) (by omega)) (m / 10) hparts.1
      omega

theorem nat_repr_inj (n m : Nat) (h : Nat.repr n = Nat.repr m) : n = m := by
  have hd : Nat.toDigits 10 n = Nat.toDigits 10 m := congrArg String.data h
  exact toDigits_inj n m hd

theorem mkCubeId_inj : Function.Injective mkCubeId := by
  intro n m h
  unfold mkCubeId at h
  have hdata := congrArg String.data h
  simp only [String.data_append] at hdata
  have hrepr : (Nat.repr n).data = (Nat.repr m).data :=
    List.append_cancel_left hdata
  exact nat_repr_inj n m (String.ext hrepr)

theorem dictContains_eq_false_of_not_mem (d : List (String × α)) (k : String)
    (h : k ∉ dictKeys d) : dictContains d k = false := by
  rw [dictContains, List.any_eq_false]
  intro p hp hpk
  have hk : p.1 = k := by simpa using hpk
  exact h (hk ▸ List.mem_map_of_mem Prod.fst hp)

theorem dictInsert_append (d : List (String × α)) (k : String) (v : α)
    (h : dictContains d k = false) : dictInsert d k v = d ++ [(k, v)] := by
  unfold dictInsert
  rw [h]
  simp

/-- The cube ids a registry with `n` sessions created in connect order:
`cube_1 … cube_n`. -/
def idsUpTo (n : Nat) : List String := (List.range' 1 n).map mkCubeId

/-- Trace harness: run a sequence of `connect_cube` calls (device id plus
the outcome of that call's external operations), collecting the session
ids returned by the calls that established a new connection. -/
def runConnects : CubeManagerState → List (String × ConnectEnv) →
    CubeManagerState × List String
  | s, [] => (s, [])
  | s, (dev, env) :: rest =>
    let r := connect_cube env s dev
    let newIds :=
      match dictLookup s.deviceMap dev, r.1 with
      | none, .ok cid => [cid]
      | _, _ => []
    let next := runConnects r.2.1 rest
    (next.1, newIds ++ next.2)

theorem runConnects_cons (s : CubeManagerState) (dev : String)
    (env : ConnectEnv) (rest : List (String × ConnectEnv)) :
    runConnects s ((dev, env) :: rest) =
      ((runConnects (connect_cube env s dev).2.1 rest).1,
        (match dictLookup s.deviceMap dev, (connect_cube env s dev).1 with
          | none, .ok cid => [cid]
          | _, _ => []) ++ (runConnects (connect_cube env s dev).2.1 rest).2) := rfl

theorem runConnects_ids (ops : List (String × ConnectEnv)) :
    ∀ s : CubeManagerState, dictKeys s.cubes = idsUpTo s.cubes.length →
      dictKeys (runConnects s ops).1.cubes =
        idsUpTo (runConnects s ops).1.cubes.length ∧
      s.cubes.length ≤ (runConnects s ops).1.cubes.length ∧
      (runConnects s ops).2 =
        (List.range' (s.cubes.length + 1)
          ((runConnects s ops).1.cubes.length - s.cubes.length)).map mkCubeId := by
  induction ops with
  | nil =>
    intro s hs
    exact ⟨hs, Nat.le_refl _, by simp [runConnects]⟩
  | cons op rest ih =>
    obtain ⟨dev, env⟩ := op
    intro s hs
    cases hl : dictLookup s.deviceMap dev with
    | some cid =>
      have hconn : connect_cube env s dev = (.ok cid, s, ⟨false, false⟩) := by
        unfold connect_cube; rw [hl]
      rw [runConnects_cons, hconn, hl]
      simpa using ih s hs
    | none =>
      cases hscan : env.scanResult with
      | error e =>
        have hconn : connect_cube env s dev = (.error e, s, ⟨true, false⟩) := by
          unfold connect_cube; rw [hl, hscan]
        rw [runConnects_cons, hconn, hl]
        simpa using ih s hs
      | ok devices =>
        cases hfind : devices.find? (fun d => d.address == dev) with
        | none =>
          have hconn : connect_cube env s dev =
              (.error ("Device with ID " ++ dev ++ " not found"), s, ⟨true, false⟩) := by
            simp [connect_cube, hl, hscan, hfind]
          rw [runConnects_cons, hconn, hl]
          simpa using ih s hs
        | some d0 =>
          cases hcerr : env.connectErr with
          | some e =>
            have hconn : connect_cube env s dev = (.error e, s, ⟨true, true⟩) := by
              simp [connect_cube, hl, hscan, hfind, hcerr]
            rw [runConnects_cons, hconn, hl]
            simpa using ih s hs
          | none =>
            have hconn : connect_cube env s dev =
                (.ok (mkCubeId (s.cubes.length + 1)),
                  ⟨dictInsert s.cubes (mkCubeId (s.cubes.length + 1)) env.newCube,
                   dictInsert s.deviceMap dev (mkCubeId (s.cubes.length + 1))⟩,
                  ⟨true, true⟩) := by
              simp [connect_cube, hl, hscan, hfind, hcerr]
            have hnotmem : mkCubeId (s.cubes.length + 1) ∉ dictKeys s.cubes := by
              rw [hs]
              intro hmem
              obtain ⟨i, hi, hieq⟩ := List.mem_map.mp hmem
              obtain ⟨j, hj, rfl⟩ := List.mem_range'.mp hi
              have := mkCubeId_inj hieq
              omega
            have hins : dictInsert s.cubes (mkCubeId (s.cubes.length + 1)) env.newCube =
                s.cubes ++ [(mkCubeId (s.cubes.length + 1), env.newCube)] :=
              dictInsert_append s.cubes _ env.newCube
                (dictContains_eq_false_of_not_mem s.cubes _ hnotmem)
            have hkeys' : dictKeys (s.cubes ++
                [(mkCubeId (s.cubes.length + 1), env.newCube)]) =
                idsUpTo (s.cubes.length + 1) := by
              have hcat : List.range' 1 (s.cubes.length + 1) =
                  List.range' 1 s.cubes.length ++ [1 + s.cubes.length] :=
                List.range'_1_concat 1 s.cubes.length
              rw [idsUpTo, hcat]
              simp only [dictKeys, List.map_append] at hs ⊢
              rw [hs]
              simp [idsUpTo, Nat.add_comm 1 s.cubes.length, dictKeys]
            have hlen' : (s.cubes ++
                [(mkCubeId (s.cubes.length + 1), env.newCube)]).length =
                s.cubes.length + 1 := by simp
            rw [runConnects_cons, hconn, hl]
            simp only []
            have hs' : dictKeys (⟨s.cubes ++
                [(mkCubeId (s.cubes.length + 1), env.newCube)],
                dictInsert s.deviceMap dev (mkCubeId (s.cubes.length + 1))⟩ :
                CubeManagerState).cubes =
                idsUpTo (⟨s.cubes ++
                  [(mkCubeId (s.cubes.length + 1), env.newCube)],
                  dictInsert s.deviceMap dev (mkCubeId (s.cubes.length + 1))⟩ :
                  CubeManagerState).cubes.length := by
              simpa [hlen'] using hkeys'
            rw [hins]
            obtain ⟨hinv, hle, hids⟩ := ih _ hs'
            refine ⟨hinv, ?_, ?_⟩
            · simp only [hlen'] at hle
              omega
            · rw [hids]
              simp only [hlen']
              have hfinal := hle
              simp only [hlen'] at hfinal
              have hsplit : (runConnects
                  (⟨s.cubes ++ [(mkCubeId (s.cubes.length + 1), env.newCube)],
                    dictInsert s.deviceMap dev (mkCubeId (s.cubes.length + 1))⟩ :
                    CubeManagerState) rest).1.cubes.length - s.cubes.length =
                  ((runConnects
                  (⟨s.cubes ++ [(mkCubeId (s.cubes.length + 1), env.newCube)],
                    dictInsert s.deviceMap dev (mkCubeId (s.cubes.length + 1))⟩ :
                    CubeManagerState) rest).1.cubes.length - (s.cubes.length + 1)) + 1 := by
                omega
              rw [hsplit, List.range'_succ, List.map_cons]
              rfl

/-! Concrete trace exhibiting session-id reuse: connect two devices,
disconnect the first session, then connect a third device. -/

/-- Environment of a connect call whose scan finds exactly the target
device and whose connection succeeds. -/
def cxEnv (addr : String) (hid : Nat) : ConnectEnv :=
  ⟨.ok [⟨addr, 0⟩], none, ⟨hid, true⟩⟩

/-- Registry after `connect_cube("D1")` from the initial state. -/
def cxStateOne : CubeManagerState :=
  (connect_cube (cxEnv "D1" 10) initialState "D1").2.1

/-- Registry after a further `connect_cube("D2")`. -/
def cxStateTwo : CubeManagerState :=
  (connect_cube (cxEnv "D2" 11) cxStateOne "D2").2.1

/-- Registry after a further successful `disconnect_cube("cube_1")`. -/
def cxStateThree : CubeManagerState :=
  (disconnect_cube cxStateTwo "cube_1").2

/-- Claim C2, counterexample: after `connect("D1") = cube_1`,
`connect("D2") = cube_2` and a successful `disconnect("cube_1")`, the new
connection established for device `D3` is again assigned the previously
assigned id `cube_2` — which is even still registered — because the id is
generated from the current map size (`f"cube_{len(self._cubes) + 1}"`),
not from a monotone counter. -/
theorem session_id_unique_counterexample :
    (connect_cube (cxEnv "D1" 10) initialState "D1").1.toOption = some "cube_1" ∧
    dictLookup cxStateOne.deviceMap "D2" = none ∧
    (connect_cube (cxEnv "D2" 11) cxStateOne "D2").1.toOption = some "cube_2" ∧
    (disconnect_cube cxStateTwo "cube_1").1 = true ∧
    dictLookup cxStateThree.deviceMap "D3" = none ∧
    (connect_cube (cxEnv "D3" 12) cxStateThree "D3").1.toOption = some "cube_2" ∧
    "cube_2" ∈ get_connected_cubes cxStateThree := by
  refine ⟨by decide, by decide, by decide, by decide, by decide, by decide, by decide⟩

/-- Claim C2, amended: over any sequence of `connect_cube` calls with no
intervening disconnect, starting from the initial registry, the session
ids assigned to newly established connections are `cube_1 … cube_n` in
order and hence pairwise distinct; after a disconnect, an id may be
assigned again (see the counterexample). -/
theorem connect_only_session_ids (ops : List (String × ConnectEnv)) :
    (runConnects initialState ops).2 =
      (List.range' 1 (runConnects initialState ops).1.cubes.length).map mkCubeId ∧
    (runConnects initialState ops).2.Nodup := by
  obtain ⟨hinv, hle, hids⟩ := runConnects_ids ops initialState rfl
  have hids' : (runConnects initialState ops).2 =
      (List.range' 1 (runConnects initialState ops).1.cubes.length).map mkCubeId := by
    simpa using hids
  exact ⟨hids', hids' ▸ (List.nodup_range' 1 _).map mkCubeId_inj⟩

end ToioMcp
